import Mathlib

/-!
Verification development for the closed-form transport-map module
(src/cpbd/high_order.py) of the ocelot beam-dynamics code.

The Python source is embedded shallowly over the real numbers:

* floating-point scalars become `ℝ`; `numpy` trigonometric calls become
  `Real.cos`, `Real.sin`, `Real.tan`, `Real.sqrt`, `Real.cosh`, `Real.sinh`;
* the complex square root trick of `t_nnn` (`kx = sqrt(kx2 + 0j)` followed by
  taking real parts of `cos(kx*L)` and `sin(kx*L)/kx`) is embedded by the
  equivalent sign split: the trigonometric branch for `kx2 >= 0` and the
  hyperbolic branch for `kx2 < 0`;
* the guards `kx != 0`, `ky != 0` of the source are equivalent to
  `kx2 != 0`, `ky2 != 0` (a complex square root vanishes only at zero), and
  are embedded that way;
* the 6x6x6 tensor built by writing into `zeros((6,6,6))` becomes a function
  `Fin 6 → Fin 6 → Fin 6 → ℝ` matching exactly on the written index triples
  and returning 0 elsewhere;
* division is total real division; the division-by-zero behaviour demanded by
  the specification is captured separately by explicit lists of every
  denominator evaluated on a given input (in source order, per branch).
-/

noncomputable section

set_option linter.unusedVariables false

namespace Ocelot

open Real Matrix

/-! ## Basis functions of t_nnn (src/cpbd/high_order.py, lines 91-112) -/

/-- kx2 = k1 + h*h. -/
def kx2 (h k1 : ℝ) : ℝ := k1 + h*h

/-- ky2 = -k1. -/
def ky2 (k1 : ℝ) : ℝ := -k1

/-- kx4 = kx2*kx2. -/
def kx4 (h k1 : ℝ) : ℝ := kx2 h k1 * kx2 h k1

/-- ky4 = ky2*ky2. -/
def ky4 (k1 : ℝ) : ℝ := ky2 k1 * ky2 k1

/-- denom = kx2 - 4*ky2 (line 115). -/
def denom (h k1 : ℝ) : ℝ := kx2 h k1 - 4*ky2 k1

/-- cx = cos(kx*L).real with kx = sqrt(kx2 + 0j): cosine for kx2 >= 0,
hyperbolic cosine for kx2 < 0. -/
def cx (L h k1 : ℝ) : ℝ :=
  if 0 ≤ kx2 h k1 then Real.cos (Real.sqrt (kx2 h k1) * L)
  else Real.cosh (Real.sqrt (-kx2 h k1) * L)

/-- sx = (sin(kx*L)/kx).real if kx != 0 else L. -/
def sx (L h k1 : ℝ) : ℝ :=
  if kx2 h k1 = 0 then L
  else if 0 < kx2 h k1 then Real.sin (Real.sqrt (kx2 h k1) * L) / Real.sqrt (kx2 h k1)
  else Real.sinh (Real.sqrt (-kx2 h k1) * L) / Real.sqrt (-kx2 h k1)

/-- cy = cos(ky*L).real with ky = sqrt(ky2 + 0j). -/
def cy (L k1 : ℝ) : ℝ :=
  if 0 ≤ ky2 k1 then Real.cos (Real.sqrt (ky2 k1) * L)
  else Real.cosh (Real.sqrt (-ky2 k1) * L)

/-- sy = (sin(ky*L)/ky).real if ky != 0 else L. -/
def sy (L k1 : ℝ) : ℝ :=
  if ky2 k1 = 0 then L
  else if 0 < ky2 k1 then Real.sin (Real.sqrt (ky2 k1) * L) / Real.sqrt (ky2 k1)
  else Real.sinh (Real.sqrt (-ky2 k1) * L) / Real.sqrt (-ky2 k1)

/-- dx = h/kx2*(1 - cx) if kx != 0 else L*L*h/2. -/
def dx (L h k1 : ℝ) : ℝ :=
  if kx2 h k1 ≠ 0 then h/kx2 h k1*(1 - cx L h k1) else L*L*h/2

/-- dx_h = (1 - cx)/kx2 if kx != 0 else L*L/2. -/
def dx_h (L h k1 : ℝ) : ℝ :=
  if kx2 h k1 ≠ 0 then (1 - cx L h k1)/kx2 h k1 else L*L/2

/-! ## Moment integrals (lines 114-256): one definition per source local,
branch structure reproduced per definition. -/

/-- I111 = 1/3*(sx2 + dx_h). -/
def I111 (L h k1 : ℝ) : ℝ := 1/3*(sx L h k1*sx L h k1 + dx_h L h k1)

/-- I122 = dx_h*dx_h/3. -/
def I122 (L h k1 : ℝ) : ℝ := dx_h L h k1*dx_h L h k1/3

/-- I112 = sx*dx_h/3. -/
def I112 (L h k1 : ℝ) : ℝ := sx L h k1*dx_h L h k1/3

/-- I11 = L*sx/2. -/
def I11 (L h k1 : ℝ) : ℝ := L*sx L h k1/2

/-- I10 = dx_h. -/
def I10 (L h k1 : ℝ) : ℝ := dx_h L h k1

/-- I33 = L*sy/2. -/
def I33 (L h k1 : ℝ) : ℝ := L*sy L k1/2

/-- I34 = (sy - L*cy)/(2*ky2) if ky != 0 else L^3/6. -/
def I34 (L h k1 : ℝ) : ℝ :=
  if ky2 k1 ≠ 0 then (sy L k1 - L*cy L k1)/(2*ky2 k1) else L^3/6

/-- I211 = sx/3*(1 + 2*cx). -/
def I211 (L h k1 : ℝ) : ℝ := sx L h k1/3*(1 + 2*cx L h k1)

/-- I222 = 2*dx_h*sx/3. -/
def I222 (L h k1 : ℝ) : ℝ := 2*dx_h L h k1*sx L h k1/3

/-- I212 = 1/3*(2*sx2 - dx_h). -/
def I212 (L h k1 : ℝ) : ℝ := 1/3*(2*sx L h k1*sx L h k1 - dx_h L h k1)

/-- I21 = 1/2*(L*cx + sx). -/
def I21 (L h k1 : ℝ) : ℝ := 1/2*(L*cx L h k1 + sx L h k1)

/-- I22 = I11. -/
def I22 (L h k1 : ℝ) : ℝ := I11 L h k1

/-- I20 = sx. -/
def I20 (L h k1 : ℝ) : ℝ := sx L h k1

/-- I43 = 0.5*(L*cy + sy). -/
def I43 (L h k1 : ℝ) : ℝ := 0.5*(L*cy L k1 + sy L k1)

/-- I44 = I33. -/
def I44 (L h k1 : ℝ) : ℝ := I33 L h k1

/-- I512 = h*dx_h*dx_h/6. -/
def I512 (L h k1 : ℝ) : ℝ := h*dx_h L h k1*dx_h L h k1/6

/-- I51 = L*dx/2. -/
def I51 (L h k1 : ℝ) : ℝ := L*dx L h k1/2

/-- I116 = h/kx2*(I11 - I111) if kx != 0 else h*L^4/24. -/
def I116 (L h k1 : ℝ) : ℝ :=
  if kx2 h k1 ≠ 0 then h/kx2 h k1*(I11 L h k1 - I111 L h k1) else h*L^4/24

/-- I12 = 0.5/kx2*(sx - L*cx) if kx != 0 else L^3/6. -/
def I12 (L h k1 : ℝ) : ℝ :=
  if kx2 h k1 ≠ 0 then 0.5/kx2 h k1*(sx L h k1 - L*cx L h k1) else L^3/6

/-- I126 = h/kx2*(I12 - I112) if kx != 0 else h*L^5/40. -/
def I126 (L h k1 : ℝ) : ℝ :=
  if kx2 h k1 ≠ 0 then h/kx2 h k1*(I12 L h k1 - I112 L h k1) else h*L^5/40

/-- I16 = h/kx2*(dx_h - L*sx/2) if kx != 0 else h*L^4/24. -/
def I16 (L h k1 : ℝ) : ℝ :=
  if kx2 h k1 ≠ 0 then h/kx2 h k1*(dx_h L h k1 - L*sx L h k1/2) else h*L^4/24

/-- I166 = h2/kx4*(I10 - 2*I11 + I111) if kx != 0 else h2*L^6/120. -/
def I166 (L h k1 : ℝ) : ℝ :=
  if kx2 h k1 ≠ 0 then h*h/kx4 h k1*(I10 L h k1 - 2*I11 L h k1 + I111 L h k1)
  else h*h*L^6/120

/-- I216 = h/kx2*(I21 - I211) if kx != 0 else h*L^3/6. -/
def I216 (L h k1 : ℝ) : ℝ :=
  if kx2 h k1 ≠ 0 then h/kx2 h k1*(I21 L h k1 - I211 L h k1) else h*L^3/6

/-- I226 = h/kx2*(I22 - I212) if kx != 0 else h*L^4/8. -/
def I226 (L h k1 : ℝ) : ℝ :=
  if kx2 h k1 ≠ 0 then h/kx2 h k1*(I22 L h k1 - I212 L h k1) else h*L^4/8

/-- I26 = h/(2*kx2)*(sx - L*cx) if kx != 0 else h*L^3/6. -/
def I26 (L h k1 : ℝ) : ℝ :=
  if kx2 h k1 ≠ 0 then h/(2*kx2 h k1)*(sx L h k1 - L*cx L h k1) else h*L^3/6

/-- I266 = h2/kx4*(I20 - 2*I21 + I211) if kx != 0 else h2*L^5/20. -/
def I266 (L h k1 : ℝ) : ℝ :=
  if kx2 h k1 ≠ 0 then h*h/kx4 h k1*(I20 L h k1 - 2*I21 L h k1 + I211 L h k1)
  else h*h*L^5/20

/-- I511 = h*(3*L - 2*sx - sx*cx)/(6*kx2) if kx != 0 else h*L^3/6. -/
def I511 (L h k1 : ℝ) : ℝ :=
  if kx2 h k1 ≠ 0 then h*(3*L - 2*sx L h k1 - sx L h k1*cx L h k1)/(6*kx2 h k1)
  else h*L^3/6

/-- I522 = h*(3*L - 4*sx + sx*cx)/(6*kx4) if kx != 0 else h*L^5/60. -/
def I522 (L h k1 : ℝ) : ℝ :=
  if kx2 h k1 ≠ 0 then h*(3*L - 4*sx L h k1 + sx L h k1*cx L h k1)/(6*kx4 h k1)
  else h*L^5/60

/-- I516 = h/kx2*(I51 - I511) if kx != 0 else h2*L^5/120. -/
def I516 (L h k1 : ℝ) : ℝ :=
  if kx2 h k1 ≠ 0 then h/kx2 h k1*(I51 L h k1 - I511 L h k1) else h*h*L^5/120

/-- I52 = (2*dx - h*L*sx)/(2*kx2) if kx != 0 else h*L^4/24 (the active formula;
the commented alternative of the source is ignored). -/
def I52 (L h k1 : ℝ) : ℝ :=
  if kx2 h k1 ≠ 0 then (2*dx L h k1 - h*L*sx L h k1)/(2*kx2 h k1) else h*L^4/24

/-- I526 = h/kx2*(I52 - I512) if kx != 0 else h2*L^6/240. -/
def I526 (L h k1 : ℝ) : ℝ :=
  if kx2 h k1 ≠ 0 then h/kx2 h k1*(I52 L h k1 - I512 L h k1) else h*h*L^6/240

/-- I50 = h*(L - sx)/kx2 if kx != 0 else h*L^3/6. -/
def I50 (L h k1 : ℝ) : ℝ :=
  if kx2 h k1 ≠ 0 then h*(L - sx L h k1)/kx2 h k1 else h*L^3/6

/-- I566 = h2/kx4*(I50 - 2*I51 + I511) if kx != 0 else h^3*L^7/840. -/
def I566 (L h k1 : ℝ) : ℝ :=
  if kx2 h k1 ≠ 0 then h*h/kx4 h k1*(I50 L h k1 - 2*I51 L h k1 + I511 L h k1)
  else h*h*h*L^7/840

/-- I56 = (h2*(L*(1 + cx) - 2*sx))/(2*kx4) if kx != 0 else h2*L^5/120. -/
def I56 (L h k1 : ℝ) : ℝ :=
  if kx2 h k1 ≠ 0 then (h*h*(L*(1 + cx L h k1) - 2*sx L h k1))/(2*kx4 h k1)
  else h*h*L^5/120

/-! Integrals with the three-way branch of lines 177-226:
(kx != 0 and ky != 0) / (kx != 0 and ky == 0) / else. -/

/-- I144 = Gx * sy^2 (three-way branch, lines 178/199/212). -/
def I144 (L h k1 : ℝ) : ℝ :=
  if kx2 h k1 ≠ 0 ∧ ky2 k1 ≠ 0 then (sy L k1*sy L k1 - 2*dx_h L h k1)/denom h k1
  else if kx2 h k1 ≠ 0 ∧ ky2 k1 = 0 then (-2 + kx2 h k1*L^2 + 2*cx L h k1)/kx4 h k1
  else L^4/12

/-- I133 = Gx * cy^2 (lines 179/200/213). -/
def I133 (L h k1 : ℝ) : ℝ :=
  if kx2 h k1 ≠ 0 ∧ ky2 k1 ≠ 0 then
    dx_h L h k1 - ky2 k1*(sy L k1*sy L k1 - 2*dx_h L h k1)/denom h k1
  else if kx2 h k1 ≠ 0 ∧ ky2 k1 = 0 then (1 - cx L h k1)/kx2 h k1
  else L^2/2

/-- I134 = Gx * cy*sy (lines 180/201/214). -/
def I134 (L h k1 : ℝ) : ℝ :=
  if kx2 h k1 ≠ 0 ∧ ky2 k1 ≠ 0 then (sy L k1*cy L k1 - sx L h k1)/denom h k1
  else if kx2 h k1 ≠ 0 ∧ ky2 k1 = 0 then (L - sx L h k1)/kx2 h k1
  else L^3/6

/-- I313 = Gy * cx*cy (lines 181/198/215). -/
def I313 (L h k1 : ℝ) : ℝ :=
  if kx2 h k1 ≠ 0 ∧ ky2 k1 ≠ 0 then
    (kx2 h k1*cy L k1*dx_h L h k1 - 2*ky2 k1*sx L h k1*sy L k1)/denom h k1
  else if kx2 h k1 ≠ 0 ∧ ky2 k1 = 0 then (1 - cx L h k1)/kx2 h k1
  else L^2/2

/-- I324 = Gy * sx*sy (lines 182/196/216). -/
def I324 (L h k1 : ℝ) : ℝ :=
  if kx2 h k1 ≠ 0 ∧ ky2 k1 ≠ 0 then
    (2*cy L k1*dx_h L h k1 - sx L h k1*sy L k1)/denom h k1
  else if kx2 h k1 ≠ 0 ∧ ky2 k1 = 0 then
    2*(1 - cx L h k1)/kx4 h k1 - L*sx L h k1/kx2 h k1
  else L^4/12

/-- I314 = Gy * cx*sy (lines 183/197/217). -/
def I314 (L h k1 : ℝ) : ℝ :=
  if kx2 h k1 ≠ 0 ∧ ky2 k1 ≠ 0 then
    (2*cy L k1*sx L h k1 - (1 + cx L h k1)*sy L k1)/denom h k1
  else if kx2 h k1 ≠ 0 ∧ ky2 k1 = 0 then (2*sx L h k1 - L*(1 + cx L h k1))/kx2 h k1
  else L^3/6

/-- I323 = Gy * sx*cy (lines 184/195/218). -/
def I323 (L h k1 : ℝ) : ℝ :=
  if kx2 h k1 ≠ 0 ∧ ky2 k1 ≠ 0 then
    (sy L k1 - cy L k1*sx L h k1 - 2*ky2 k1*sy L k1*dx_h L h k1)/denom h k1
  else if kx2 h k1 ≠ 0 ∧ ky2 k1 = 0 then (L - sx L h k1)/kx2 h k1
  else L^3/6

/-- I244 (lines 186/208/219). -/
def I244 (L h k1 : ℝ) : ℝ :=
  if kx2 h k1 ≠ 0 ∧ ky2 k1 ≠ 0 then 2*(cy L k1*sy L k1 - sx L h k1)/denom h k1
  else if kx2 h k1 ≠ 0 ∧ ky2 k1 = 0 then (2*L - 2*sx L h k1)/kx2 h k1
  else L^3/3

/-- I233 (lines 187/209/220). -/
def I233 (L h k1 : ℝ) : ℝ :=
  if kx2 h k1 ≠ 0 ∧ ky2 k1 ≠ 0 then
    sx L h k1 - 2*ky2 k1*(cy L k1*sy L k1 - sx L h k1)/denom h k1
  else if kx2 h k1 ≠ 0 ∧ ky2 k1 = 0 then sx L h k1
  else L

/-- I234 (lines 188/210/221). -/
def I234 (L h k1 : ℝ) : ℝ :=
  if kx2 h k1 ≠ 0 ∧ ky2 k1 ≠ 0 then
    (kx2 h k1*dx_h L h k1 - 2*ky2 k1*sy L k1*sy L k1)/denom h k1
  else if kx2 h k1 ≠ 0 ∧ ky2 k1 = 0 then (1 - cx L h k1)/kx2 h k1
  else L^2/2

/-- I413 (lines 189/207/222). -/
def I413 (L h k1 : ℝ) : ℝ :=
  if kx2 h k1 ≠ 0 ∧ ky2 k1 ≠ 0 then
    ((kx2 h k1 - 2*ky2 k1)*cy L k1*sx L h k1 - ky2 k1*sy L k1*(1 + cx L h k1))/denom h k1
  else if kx2 h k1 ≠ 0 ∧ ky2 k1 = 0 then sx L h k1
  else L

/-- I424 (lines 190/204/223). -/
def I424 (L h k1 : ℝ) : ℝ :=
  if kx2 h k1 ≠ 0 ∧ ky2 k1 ≠ 0 then
    (cy L k1*sx L h k1 - cx L h k1*sy L k1 - 2*ky2 k1*sy L k1*dx_h L h k1)/denom h k1
  else if kx2 h k1 ≠ 0 ∧ ky2 k1 = 0 then (sx L h k1 - L*cx L h k1)/kx2 h k1
  else L^3/3

/-- I414 (lines 191/206/224; the active formula of line 206). -/
def I414 (L h k1 : ℝ) : ℝ :=
  if kx2 h k1 ≠ 0 ∧ ky2 k1 ≠ 0 then
    ((kx2 h k1 - 2*ky2 k1)*sx L h k1*sy L k1 - (1 - cx L h k1)*cy L k1)/denom h k1
  else if kx2 h k1 ≠ 0 ∧ ky2 k1 = 0 then (cx L h k1 - 1)/kx2 h k1 + L*sx L h k1
  else L^2/2

/-- I423 (lines 192/203/225). -/
def I423 (L h k1 : ℝ) : ℝ :=
  if kx2 h k1 ≠ 0 ∧ ky2 k1 ≠ 0 then
    (cy L k1*dx_h L h k1*(kx2 h k1 - 2*ky2 k1) - ky2 k1*sx L h k1*sy L k1)/denom h k1
  else if kx2 h k1 ≠ 0 ∧ ky2 k1 = 0 then (1 - cx L h k1)/kx2 h k1
  else L^2/2

/-! Integrals with the three-way branch of lines 228-256:
(kx == 0 and ky != 0) / (kx == 0 and ky == 0) / else. -/

/-- I336 (lines 229/239/249). -/
def I336 (L h k1 : ℝ) : ℝ :=
  if kx2 h k1 = 0 ∧ ky2 k1 ≠ 0 then
    (h*L*(3*L*cy L k1 + (2*ky2 k1*L^2 - 3)*sy L k1))/(24*ky2 k1)
  else if kx2 h k1 = 0 ∧ ky2 k1 = 0 then (h*L^4)/24
  else h/kx2 h k1*(I33 L h k1 - I313 L h k1)

/-- I346 (lines 230/240/250). -/
def I346 (L h k1 : ℝ) : ℝ :=
  if kx2 h k1 = 0 ∧ ky2 k1 ≠ 0 then
    (h*((3 - 2*ky2 k1*L^2)*L*cy L k1 + 3*(ky2 k1*L^2 - 1)*sy L k1))/(24*ky4 k1)
  else if kx2 h k1 = 0 ∧ ky2 k1 = 0 then (h*L^5)/40
  else h/kx2 h k1*(I34 L h k1 - I314 L h k1)

/-- I436 (lines 231/241/251). -/
def I436 (L h k1 : ℝ) : ℝ :=
  if kx2 h k1 = 0 ∧ ky2 k1 ≠ 0 then I346 L h k1
  else if kx2 h k1 = 0 ∧ ky2 k1 = 0 then (h*L^3)/6
  else h/kx2 h k1*(I43 L h k1 - I413 L h k1)

/-- I446 (lines 232/242/252). -/
def I446 (L h k1 : ℝ) : ℝ :=
  if kx2 h k1 = 0 ∧ ky2 k1 ≠ 0 then
    (h*L*(-3*L*cy L k1 + (3 + 2*ky2 k1*L^2)*sy L k1))/(24*ky2 k1)
  else if kx2 h k1 = 0 ∧ ky2 k1 = 0 then (h*L^4)/8
  else h/kx2 h k1*(I44 L h k1 - I414 L h k1)

/-- I533 (lines 234/244/254). -/
def I533 (L h k1 : ℝ) : ℝ :=
  if kx2 h k1 = 0 ∧ ky2 k1 ≠ 0 then
    (h*(3*L + 2*ky2 k1*L^3 - 3*sy L k1*cy L k1))/(24*ky2 k1)
  else if kx2 h k1 = 0 ∧ ky2 k1 = 0 then h*L^3/6
  else (h*(denom h k1*L - 2*(denom h k1 + 2*ky2 k1)*sx L h k1 +
        kx2 h k1*cy L k1*sy L k1))/(2*denom h k1*kx2 h k1)

/-- I534 (lines 235/245/255). -/
def I534 (L h k1 : ℝ) : ℝ :=
  if kx2 h k1 = 0 ∧ ky2 k1 ≠ 0 then (h*(L^2 - sy L k1*sy L k1))/(8*ky2 k1)
  else if kx2 h k1 = 0 ∧ ky2 k1 = 0 then h*L^4/24
  else (h*sy L k1*sy L k1 - 2*dx L h k1)/(2*denom h k1)

/-- I544 (lines 236/246/256). -/
def I544 (L h k1 : ℝ) : ℝ :=
  if kx2 h k1 = 0 ∧ ky2 k1 ≠ 0 then
    (h*(-3*L + 2*ky2 k1*L^3 + 3*sy L k1*cy L k1))/(24*ky4 k1)
  else if kx2 h k1 = 0 ∧ ky2 k1 = 0 then h*L^5/60
  else (sy L k1*sy L k1 - 2*dx_h L h k1)/denom h k1

/-! ## Second-order terms (lines 258-296 and 349-371). -/

/-- K2 = k2/2 (line 258). -/
def K2 (k2 : ℝ) : ℝ := k2/2

/-- coef1 = 2*ky2*h - h3 - K2 (line 259). -/
def coef1 (h k1 k2 : ℝ) : ℝ := 2*ky2 k1*h - h*h*h - K2 k2

/-- coef3 = 2*h2 - ky2 (line 260). -/
def coef3 (h k1 : ℝ) : ℝ := 2*h*h - ky2 k1

/-- coef2 = 2*(K2 - ky2*h) (line 282). -/
def coef2 (h k1 k2 : ℝ) : ℝ := 2*(K2 k2 - ky2 k1*h)

/-- t111 = coef1*I111 + h*kx4*I122/2. -/
def t111 (L h k1 k2 : ℝ) : ℝ := coef1 h k1 k2*I111 L h k1 + h*kx4 h k1*I122 L h k1/2

/-- t112 = 2*coef1*I112 - h*kx2*I112. -/
def t112 (L h k1 k2 : ℝ) : ℝ := 2*coef1 h k1 k2*I112 L h k1 - h*kx2 h k1*I112 L h k1

/-- t116 = 2*coef1*I116 + coef3*I11 - h2*kx2*I122. -/
def t116 (L h k1 k2 : ℝ) : ℝ :=
  2*coef1 h k1 k2*I116 L h k1 + coef3 h k1*I11 L h k1 - h*h*kx2 h k1*I122 L h k1

/-- t122 = coef1*I122 + 0.5*h*I111. -/
def t122 (L h k1 k2 : ℝ) : ℝ := coef1 h k1 k2*I122 L h k1 + 0.5*h*I111 L h k1

/-- t126 = 2*coef1*I126 + coef3*I12 + h2*I112. -/
def t126 (L h k1 k2 : ℝ) : ℝ :=
  2*coef1 h k1 k2*I126 L h k1 + coef3 h k1*I12 L h k1 + h*h*I112 L h k1

/-- t166 = coef1*I166 + coef3*I16 + 0.5*h3*I122 - h*I10. -/
def t166 (L h k1 k2 : ℝ) : ℝ :=
  coef1 h k1 k2*I166 L h k1 + coef3 h k1*I16 L h k1 + 0.5*h*h*h*I122 L h k1 - h*I10 L h k1

/-- t133 = K2*I133 - ky2*h*I10/2. -/
def t133 (L h k1 k2 : ℝ) : ℝ := K2 k2*I133 L h k1 - ky2 k1*h*I10 L h k1/2

/-- t134 = 2*K2*I134. -/
def t134 (L h k1 k2 : ℝ) : ℝ := 2*K2 k2*I134 L h k1

/-- t144 = K2*I144 - h*I10/2. -/
def t144 (L h k1 k2 : ℝ) : ℝ := K2 k2*I144 L h k1 - h*I10 L h k1/2

/-- t211 = coef1*I211 + h*kx4*I222/2. -/
def t211 (L h k1 k2 : ℝ) : ℝ := coef1 h k1 k2*I211 L h k1 + h*kx4 h k1*I222 L h k1/2

/-- t212 = 2*coef1*I212 - h*kx2*I212. -/
def t212 (L h k1 k2 : ℝ) : ℝ := 2*coef1 h k1 k2*I212 L h k1 - h*kx2 h k1*I212 L h k1

/-- t216 = 2*coef1*I216 + coef3*I21 - h2*kx2*I222. -/
def t216 (L h k1 k2 : ℝ) : ℝ :=
  2*coef1 h k1 k2*I216 L h k1 + coef3 h k1*I21 L h k1 - h*h*kx2 h k1*I222 L h k1

/-- t222 = coef1*I222 + 0.5*h*I211. -/
def t222 (L h k1 k2 : ℝ) : ℝ := coef1 h k1 k2*I222 L h k1 + 0.5*h*I211 L h k1

/-- t226 = 2*coef1*I226 + coef3*I22 + h2*I212. -/
def t226 (L h k1 k2 : ℝ) : ℝ :=
  2*coef1 h k1 k2*I226 L h k1 + coef3 h k1*I22 L h k1 + h*h*I212 L h k1

/-- t266 = coef1*I266 + coef3*I26 + 0.5*h3*I222 - h*I20. -/
def t266 (L h k1 k2 : ℝ) : ℝ :=
  coef1 h k1 k2*I266 L h k1 + coef3 h k1*I26 L h k1 + 0.5*h*h*h*I222 L h k1 - h*I20 L h k1

/-- t233 = K2*I233 - ky2*h*I20/2. -/
def t233 (L h k1 k2 : ℝ) : ℝ := K2 k2*I233 L h k1 - ky2 k1*h*I20 L h k1/2

/-- t234 = 2*K2*I234. -/
def t234 (L h k1 k2 : ℝ) : ℝ := 2*K2 k2*I234 L h k1

/-- t244 = K2*I244 - h*I20/2. -/
def t244 (L h k1 k2 : ℝ) : ℝ := K2 k2*I244 L h k1 - h*I20 L h k1/2

/-- t313 = coef2*I313 + h*kx2*ky2*I324. -/
def t313 (L h k1 k2 : ℝ) : ℝ := coef2 h k1 k2*I313 L h k1 + h*kx2 h k1*ky2 k1*I324 L h k1

/-- t314 = coef2*I314 - h*kx2*I323. -/
def t314 (L h k1 k2 : ℝ) : ℝ := coef2 h k1 k2*I314 L h k1 - h*kx2 h k1*I323 L h k1

/-- t323 = coef2*I323 - h*ky2*I314. -/
def t323 (L h k1 k2 : ℝ) : ℝ := coef2 h k1 k2*I323 L h k1 - h*ky2 k1*I314 L h k1

/-- t324 = coef2*I324 + h*I313. -/
def t324 (L h k1 k2 : ℝ) : ℝ := coef2 h k1 k2*I324 L h k1 + h*I313 L h k1

/-- t336 = coef2*I336 + ky2*I33 - h2*ky2*I324. -/
def t336 (L h k1 k2 : ℝ) : ℝ :=
  coef2 h k1 k2*I336 L h k1 + ky2 k1*I33 L h k1 - h*h*ky2 k1*I324 L h k1

/-- t346 = coef2*I346 + h2*I323 + ky2*I34. -/
def t346 (L h k1 k2 : ℝ) : ℝ :=
  coef2 h k1 k2*I346 L h k1 + h*h*I323 L h k1 + ky2 k1*I34 L h k1

/-- t413 = coef2*I413 + h*kx2*ky2*I424. -/
def t413 (L h k1 k2 : ℝ) : ℝ := coef2 h k1 k2*I413 L h k1 + h*kx2 h k1*ky2 k1*I424 L h k1

/-- t414 = coef2*I414 - h*kx2*I423. -/
def t414 (L h k1 k2 : ℝ) : ℝ := coef2 h k1 k2*I414 L h k1 - h*kx2 h k1*I423 L h k1

/-- t423 = coef2*I423 - h*ky2*I414. -/
def t423 (L h k1 k2 : ℝ) : ℝ := coef2 h k1 k2*I423 L h k1 - h*ky2 k1*I414 L h k1

/-- t424 = coef2*I424 + h*I413. -/
def t424 (L h k1 k2 : ℝ) : ℝ := coef2 h k1 k2*I424 L h k1 + h*I413 L h k1

/-- t436 = coef2*I436 - h2*ky2*I424 + ky2*I43. -/
def t436 (L h k1 k2 : ℝ) : ℝ :=
  coef2 h k1 k2*I436 L h k1 - h*h*ky2 k1*I424 L h k1 + ky2 k1*I43 L h k1

/-- t446 = coef2*I446 + h2*I423 + ky2*I44. -/
def t446 (L h k1 k2 : ℝ) : ℝ :=
  coef2 h k1 k2*I446 L h k1 + h*h*I423 L h k1 + ky2 k1*I44 L h k1

/-- t511 = coef1*I511 + h*kx4*I522/2. -/
def t511 (L h k1 k2 : ℝ) : ℝ := coef1 h k1 k2*I511 L h k1 + h*kx4 h k1*I522 L h k1/2

/-- t512 = 2*coef1*I512 - h*kx2*I512. -/
def t512 (L h k1 k2 : ℝ) : ℝ := 2*coef1 h k1 k2*I512 L h k1 - h*kx2 h k1*I512 L h k1

/-- t516 = 2*coef1*I516 + coef3*I51 - h2*kx2*I522. -/
def t516 (L h k1 k2 : ℝ) : ℝ :=
  2*coef1 h k1 k2*I516 L h k1 + coef3 h k1*I51 L h k1 - h*h*kx2 h k1*I522 L h k1

/-- t522 = coef1*I522 + 0.5*h*I511. -/
def t522 (L h k1 k2 : ℝ) : ℝ := coef1 h k1 k2*I522 L h k1 + 0.5*h*I511 L h k1

/-- t526 = 2*coef1*I526 + coef3*I52 + h2*I512. -/
def t526 (L h k1 k2 : ℝ) : ℝ :=
  2*coef1 h k1 k2*I526 L h k1 + coef3 h k1*I52 L h k1 + h*h*I512 L h k1

/-- t566 = coef1*I566 + coef3*I56 + 0.5*h3*I522 - h*I50. -/
def t566 (L h k1 k2 : ℝ) : ℝ :=
  coef1 h k1 k2*I566 L h k1 + coef3 h k1*I56 L h k1 + 0.5*h*h*h*I522 L h k1 - h*I50 L h k1

/-- t533 = K2*I533 - ky2*h*I50/2. -/
def t533 (L h k1 k2 : ℝ) : ℝ := K2 k2*I533 L h k1 - ky2 k1*h*I50 L h k1/2

/-- t534 = 2*K2*I534. -/
def t534 (L h k1 k2 : ℝ) : ℝ := 2*K2 k2*I534 L h k1

/-- t544 = K2*I544 - h*I50/2. -/
def t544 (L h k1 k2 : ℝ) : ℝ := K2 k2*I544 L h k1 - h*I50 L h k1/2

/-- i566 = h2*(L - sx*cx)/(4*kx2) if kx != 0 else h2*L^3/6 (line 359). -/
def i566 (L h k1 : ℝ) : ℝ :=
  if kx2 h k1 ≠ 0 then h*h*(L - sx L h k1*cx L h k1)/(4*kx2 h k1) else h*h*L^3/6

/-- T511 = t511 + 1/4*kx2*(L - cx*sx) (line 361). -/
def T511 (L h k1 k2 : ℝ) : ℝ :=
  t511 L h k1 k2 + 1/4*kx2 h k1*(L - cx L h k1*sx L h k1)

/-- T512 = t512 - (1/2)*kx2*sx2 + h*dx (line 363). -/
def T512 (L h k1 k2 : ℝ) : ℝ :=
  t512 L h k1 k2 - 1/2*kx2 h k1*(sx L h k1*sx L h k1) + h*dx L h k1

/-- T516 = t516 + h*(sx*cx - L)/2 (line 364). -/
def T516 (L h k1 k2 : ℝ) : ℝ := t516 L h k1 k2 + h*(sx L h k1*cx L h k1 - L)/2

/-- T522 = t522 + (L + sx*cx)/4 (line 365). -/
def T522 (L h k1 k2 : ℝ) : ℝ := t522 L h k1 k2 + (L + sx L h k1*cx L h k1)/4

/-- T526 = t526 + h*sx2/2 (line 367). -/
def T526 (L h k1 k2 : ℝ) : ℝ := t526 L h k1 k2 + h*(sx L h k1*sx L h k1)/2

/-- T566 = t566 + i566 (line 368). -/
def T566 (L h k1 k2 : ℝ) : ℝ := t566 L h k1 k2 + i566 L h k1

/-- T533 = t533 + 1/4*ky2*(L - sy*cy) (line 369). -/
def T533 (L h k1 k2 : ℝ) : ℝ :=
  t533 L h k1 k2 + 1/4*ky2 k1*(L - sy L k1*cy L k1)

/-- T534 = t534 - 1/2*ky2*sy2 (line 370). -/
def T534 (L h k1 k2 : ℝ) : ℝ := t534 L h k1 k2 - 1/2*ky2 k1*(sy L k1*sy L k1)

/-- T544 = t544 + (L + sy*cy)/4 (line 371). -/
def T544 (L h k1 k2 : ℝ) : ℝ := t544 L h k1 k2 + (L + sy L k1*cy L k1)/4

/-! ## Frame-change derivatives (lines 299-303). -/

/-- cx_1 = -kx2*sx. -/
def cx_1 (L h k1 : ℝ) : ℝ := -kx2 h k1*sx L h k1

/-- sx_1 = cx. -/
def sx_1 (L h k1 : ℝ) : ℝ := cx L h k1

/-- cy_1 = -ky2*sy. -/
def cy_1 (L h k1 : ℝ) : ℝ := -ky2 k1*sy L k1

/-- sy_1 = cy. -/
def sy_1 (L h k1 : ℝ) : ℝ := cy L k1

/-- dx_1 = h*sx. -/
def dx_1 (L h k1 : ℝ) : ℝ := h*sx L h k1

/-- t_nnn: the second-order tensor assembled by lines 304-381 of the source.
The Python function fills a zero 6x6x6 array at exactly the index triples
below; every other entry stays 0. -/
def t_nnn (L h k1 k2 : ℝ) : Fin 6 → Fin 6 → Fin 6 → ℝ := fun i j k =>
  match i, j, k with
  | 0, 0, 0 => t111 L h k1 k2
  | 0, 0, 1 => t112 L h k1 k2 + h*sx L h k1
  | 0, 0, 5 => t116 L h k1 k2
  | 0, 1, 1 => t122 L h k1 k2
  | 0, 1, 5 => t126 L h k1 k2
  | 0, 5, 5 => t166 L h k1 k2
  | 0, 2, 2 => t133 L h k1 k2
  | 0, 2, 3 => t134 L h k1 k2
  | 0, 3, 3 => t144 L h k1 k2
  | 1, 0, 0 => t211 L h k1 k2 - h*cx L h k1*cx_1 L h k1
  | 1, 0, 1 => t212 L h k1 k2 + h*sx_1 L h k1 - h*(sx L h k1*cx_1 L h k1 + cx L h k1*sx_1 L h k1)
  | 1, 0, 5 => t216 L h k1 k2 - h*(dx L h k1*cx_1 L h k1 + cx L h k1*dx_1 L h k1)
  | 1, 1, 1 => t222 L h k1 k2 - h*sx L h k1*sx_1 L h k1
  | 1, 1, 5 => t226 L h k1 k2 - h*(sx L h k1*dx_1 L h k1 + dx L h k1*sx_1 L h k1)
  | 1, 5, 5 => t266 L h k1 k2 - dx L h k1*h*dx_1 L h k1
  | 1, 2, 2 => t233 L h k1 k2
  | 1, 2, 3 => t234 L h k1 k2
  | 1, 3, 3 => t244 L h k1 k2
  | 2, 0, 2 => t313 L h k1 k2
  | 2, 0, 3 => t314 L h k1 k2 + h*sy L k1
  | 2, 1, 2 => t323 L h k1 k2
  | 2, 1, 3 => t324 L h k1 k2
  | 2, 2, 5 => t336 L h k1 k2
  | 2, 3, 5 => t346 L h k1 k2
  | 3, 0, 2 => t413 L h k1 k2 - h*cx L h k1*cy_1 L h k1
  | 3, 0, 3 => t414 L h k1 k2 + (1 - cx L h k1)*h*sy_1 L h k1
  | 3, 1, 2 => t423 L h k1 k2 - h*sx L h k1*cy_1 L h k1
  | 3, 1, 3 => t424 L h k1 k2 - h*sx L h k1*sy_1 L h k1
  | 3, 2, 5 => t436 L h k1 k2 - h*dx L h k1*cy_1 L h k1
  | 3, 3, 5 => t446 L h k1 k2 - h*dx L h k1*sy_1 L h k1
  | 4, 0, 0 => T511 L h k1 k2
  | 4, 0, 1 => T512 L h k1 k2 + h*dx L h k1
  | 4, 0, 5 => T516 L h k1 k2
  | 4, 1, 1 => T522 L h k1 k2
  | 4, 1, 5 => T526 L h k1 k2
  | 4, 5, 5 => T566 L h k1 k2
  | 4, 2, 2 => T533 L h k1 k2
  | 4, 2, 3 => T534 L h k1 k2
  | 4, 3, 3 => T544 L h k1 k2
  | _, _, _ => 0

/-- t_nnnDivisors: the denominators of every division actually evaluated by
t_nnn on a given input, in source order, following exactly the branch
structure of the source (numeric-literal denominators such as the 3 of
1/3*(...) included).  The specification clause about evaluating without
division by zero is formalised as 0 not being a member of this list. -/
def t_nnnDivisors (L h k1 k2 : ℝ) : List ℝ :=
  (if kx2 h k1 = 0 then [] else
    if 0 < kx2 h k1 then [Real.sqrt (kx2 h k1)] else [Real.sqrt (-kx2 h k1)]) ++
  (if ky2 k1 = 0 then [] else
    if 0 < ky2 k1 then [Real.sqrt (ky2 k1)] else [Real.sqrt (-ky2 k1)]) ++
  (if kx2 h k1 ≠ 0 then [kx2 h k1] else [2]) ++          -- dx
  (if kx2 h k1 ≠ 0 then [kx2 h k1] else [2]) ++          -- dx_h
  [3, 3, 3, 2] ++                                        -- I111 I122 I112 I11
  [2] ++                                                 -- I33
  (if ky2 k1 ≠ 0 then [2*ky2 k1] else [6]) ++            -- I34
  [3, 3, 3, 2] ++                                        -- I211 I222 I212 I21
  [6, 2] ++                                              -- I512 I51
  (if kx2 h k1 ≠ 0 then
    [kx2 h k1, kx2 h k1, kx2 h k1, kx2 h k1, kx4 h k1, kx2 h k1, kx2 h k1,
     2*kx2 h k1, kx4 h k1, 6*kx2 h k1, 6*kx4 h k1, kx2 h k1, 2*kx2 h k1,
     kx2 h k1, kx2 h k1, kx4 h k1, 2*kx4 h k1]
   else [24, 6, 40, 24, 120, 6, 8, 6, 20, 6, 60, 120, 24, 240, 6, 840, 120]) ++
  (if kx2 h k1 ≠ 0 ∧ ky2 k1 ≠ 0 then List.replicate 14 (denom h k1)
   else if kx2 h k1 ≠ 0 ∧ ky2 k1 = 0 then
    [kx2 h k1, kx4 h k1, kx2 h k1, kx2 h k1, kx2 h k1, kx4 h k1, kx2 h k1,
     kx2 h k1, kx2 h k1, kx2 h k1, kx2 h k1, kx2 h k1, kx2 h k1]
   else [12, 2, 6, 2, 12, 6, 6, 3, 2, 3, 2, 2]) ++
  (if kx2 h k1 = 0 ∧ ky2 k1 ≠ 0 then
    [24*ky2 k1, 24*ky4 k1, 24*ky2 k1, 24*ky2 k1, 8*ky2 k1, 24*ky4 k1]
   else if kx2 h k1 = 0 ∧ ky2 k1 = 0 then [24, 40, 6, 8, 6, 24, 60]
   else [kx2 h k1, kx2 h k1, kx2 h k1, kx2 h k1,
         2*denom h k1*kx2 h k1, 2*denom h k1, denom h k1]) ++
  [2] ++                                                 -- K2
  [2, 2, 2] ++                                           -- t111 t133 t144
  [2, 2, 2] ++                                           -- t211 t233 t244
  [2, 2, 2] ++                                           -- t511 t533 t544
  (if kx2 h k1 ≠ 0 then [4*kx2 h k1] else [6]) ++        -- i566
  [4, 2, 2, 4, 2, 4, 2, 4]                               -- T511..T544

/-! ## Fringe fields (lines 429-484). -/

/-- sec_e = 1/cos(e). -/
def sec_e (e : ℝ) : ℝ := 1/Real.cos e

/-- phi = fint*h*gap*sec_e*(1 + sin(e)^2) (lines 436 and 464). -/
def fringePhi (h e gap fint : ℝ) : ℝ := fint*h*gap*sec_e e*(1 + Real.sin e^2)

/-- fringe_ent linear matrix: identity with R[1,0] = h*tan(e) and
R[3,2] = -h*tan(e - phi) (lines 437-439). -/
def fringe_entR (h k1 e h_pole gap fint : ℝ) : Matrix (Fin 6) (Fin 6) ℝ :=
  Matrix.of fun i j =>
    if i = 1 ∧ j = 0 then h*Real.tan e
    else if i = 3 ∧ j = 2 then -(h*Real.tan (e - fringePhi h e gap fint))
    else if i = j then 1 else 0

/-- fringe_ext linear matrix (lines 465-468); textually identical to the
entrance one in the source. -/
def fringe_extR (h k1 e h_pole gap fint : ℝ) : Matrix (Fin 6) (Fin 6) ℝ :=
  Matrix.of fun i j =>
    if i = 1 ∧ j = 0 then h*Real.tan e
    else if i = 3 ∧ j = 2 then -(h*Real.tan (e - fringePhi h e gap fint))
    else if i = j then 1 else 0

/-- fringe_ent second-order tensor (lines 442-454). -/
def fringe_entT (h k1 e h_pole gap fint : ℝ) : Fin 6 → Fin 6 → Fin 6 → ℝ :=
  fun i j k =>
  let tan_e := Real.tan e
  let tan_e2 := tan_e*tan_e
  let sec_e2 := sec_e e*sec_e e
  let sec_e3 := sec_e2*sec_e e
  let phi := fringePhi h e gap fint
  match i, j, k with
  | 0, 0, 0 => -h/2*tan_e2
  | 0, 2, 2 => h/2*sec_e2
  | 1, 0, 0 => h/2*h_pole*sec_e3 + k1*tan_e
  | 1, 0, 1 => h*tan_e2
  | 1, 0, 5 => -h*tan_e
  | 1, 2, 2 => (-k1 + h*h/2 + h*h*tan_e2)*tan_e - h/2*h_pole*sec_e3
  | 1, 2, 3 => -h*tan_e2
  | 2, 0, 2 => h*tan_e2
  | 3, 0, 2 => -h*h_pole*sec_e3 - 2*k1*tan_e
  | 3, 0, 3 => -h*tan_e2
  | 3, 1, 2 => -h*sec_e2
  | 3, 2, 5 => h*tan_e - h*phi/Real.cos (e - phi)^2
  | _, _, _ => 0

/-- fringe_ext second-order tensor (lines 471-483). -/
def fringe_extT (h k1 e h_pole gap fint : ℝ) : Fin 6 → Fin 6 → Fin 6 → ℝ :=
  fun i j k =>
  let tan_e := Real.tan e
  let tan_e2 := tan_e*tan_e
  let sec_e2 := sec_e e*sec_e e
  let sec_e3 := sec_e2*sec_e e
  let phi := fringePhi h e gap fint
  match i, j, k with
  | 0, 0, 0 => h/2*tan_e2
  | 0, 2, 2 => -h/2*sec_e2
  | 1, 0, 0 => h/2*h_pole*sec_e3 - (-k1 + h*h/2*tan_e2)*tan_e
  | 1, 0, 1 => -h*tan_e2
  | 1, 0, 5 => -h*tan_e
  | 1, 2, 2 => (-k1 - h*h/2*tan_e2)*tan_e - h/2*h_pole*sec_e3
  | 1, 2, 3 => h*tan_e2
  | 2, 0, 2 => -h*tan_e2
  | 3, 0, 2 => -h*h_pole*sec_e3 + (-k1 + h*h*sec_e2)*tan_e
  | 3, 0, 3 => h*tan_e2
  | 3, 1, 2 => h*sec_e2
  | 3, 2, 5 => h*tan_e - h*phi/Real.cos (e - phi)^2
  | _, _, _ => 0

/-- fringeDivisors: denominators of every division evaluated by fringe_ent
(and, identically, by fringe_ext): sec_e = 1/cos(e); tan(e) = sin(e)/cos(e);
tan(e - phi) = sin(e - phi)/cos(e - phi); and the division by
cos(e - phi)^2 in T[3,2,5]. -/
def fringeDivisors (h k1 e h_pole gap fint : ℝ) : List ℝ :=
  [Real.cos e, Real.cos e, Real.cos (e - fringePhi h e gap fint),
   Real.cos (e - fringePhi h e gap fint)^2]

/-- Smat: the symplectic form, block diagonal with blocks [[0,1],[-1,0]]
for each of the three phase-space planes. -/
def Smat : Matrix (Fin 6) (Fin 6) ℝ :=
  Matrix.of fun i j =>
    if i = 0 ∧ j = 1 then 1 else if i = 1 ∧ j = 0 then -1
    else if i = 2 ∧ j = 3 then 1 else if i = 3 ∧ j = 2 then -1
    else if i = 4 ∧ j = 5 then 1 else if i = 5 ∧ j = 4 then -1 else 0

/-! ## Hamiltonian evaluator and symplectic stepper (lines 486-632). -/

/-- PhaseSpaceState: the 6 canonical coordinates
(x, px, y, py, sigma, ps) of one particle. -/
structure PV where
  x : ℝ
  px : ℝ
  y : ℝ
  py : ℝ
  sigma : ℝ
  ps : ℝ

/-- H23 (lines 486-519): the six phase-space derivatives of the paraxial
Hamiltonian H2+H3; the source returns the list
[x1, px1, y1, py1, sigma1, 0], embedded here as a PV whose fields hold the
respective components. -/
def H23 (v : PV) (h k1 k2 beta g_inv : ℝ) : PV :=
  let x := v.x
  let px := v.px
  let y := v.y
  let py := v.py
  let ps := v.ps
  let px2 := px*px
  let py2 := py*py
  let x2 := x*x
  let y2 := y*y
  let ps_beta := ps/beta
  let k := 1 + h*x - ps_beta
  let x1 := px*k
  let px1 := -(h*h + k1)*x + h*ps_beta +
    (-h*(px2 + py2) - (2*h*k1 + k2)*x2 + (h*k1 + k2)*y2)/2
  let y1 := py*k
  let py1 := k1*y + (h*k1 + k2)*x*y
  let sigma1 := -(h*x)/beta - (px2 + py2)/(2*beta) - g_inv*g_inv/(beta*(1 + beta))
  ⟨x1, px1, y1, py1, sigma1, 0⟩

/-- verlet (lines 522-546): one mixed implicit/explicit symplectic-Euler
step; x is updated by solving the implicit linear equation in the current
px, then sigma and both momenta are updated explicitly at the new
positions; ps is untouched. -/
def verlet (v : PV) (step h k1 k2 beta g_inv : ℝ) : PV :=
  let x := v.x
  let px := v.px
  let y := v.y
  let py := v.py
  let sigma := v.sigma
  let ps := v.ps
  let px2_py2 := px*px + py*py
  let ps_beta := ps/beta
  let x1 := (x + step*px*(1 - ps_beta))/(1 - step*h*px)
  let y1 := y + step*py*(1 + h*x1 - ps_beta)
  let sigma1 := sigma + step*(-h*x1/beta - px2_py2/(2*beta) -
    g_inv*g_inv/(beta*(1 + beta)))
  let px_d := -(h*h + k1 + (h*k1 + k2/2)*x1)*x1 + h*ps_beta +
    (-h*px2_py2 + (h*k1 + k2)*y1*y1)/2
  let py_d := (k1 + (h*k1 + k2)*x1)*y1
  ⟨x1, px + step*px_d, y1, py + step*py_d, sigma1, ps⟩

/-- Modelled from the spec: the electron rest mass in GeV, imported by the
source from ocelot.common.globals, a module not included under src/; the
claims proved below hold for any positive value. -/
def m_e_GeV : ℝ := 0.000510998928

/-- Modelled from the spec: the speed of light in m/s, imported by the
source from ocelot.common.globals (module not included under src/). -/
def speed_of_light : ℝ := 299792458

/-- Modelled from the spec: the electron rest mass in eV, imported by the
source from ocelot.common.globals (module not included under src/). -/
def m_e_eV : ℝ := 510998.928

/-- truncR: the conversion performed by the Python builtin int() on a float,
truncation toward zero. -/
def truncR (x : ℝ) : ℤ := if 0 ≤ x then ⌊x⌋ else ⌈x⌉

/-- sym_map step selection, first stage (lines 584-587): 0.005 whenever any
of h, k1, k2 is nonzero, else the full segment length z. -/
def sym_step0 (z h k1 k2 : ℝ) : ℝ :=
  if h ≠ 0 ∨ k1 ≠ 0 ∨ k2 ≠ 0 then 0.005 else z

/-- sym_map step selection, second stage (lines 588-589): clamp to z. -/
def sym_step1 (z h k1 k2 : ℝ) : ℝ :=
  if sym_step0 z h k1 k2 > z then z else sym_step0 z h k1 k2

/-- sym_map sample count n = int(z/step) + 1 (line 592). -/
def sym_n (z h k1 k2 : ℝ) : ℤ := truncR (z / sym_step1 z h k1 k2) + 1

/-- Number of executions of the stepping loop of sym_map:
len(z_array) - 1 = n - 1 (line 617). -/
def sym_nsteps (z h k1 k2 : ℝ) : ℕ := (sym_n z h k1 k2 - 1).toNat

/-- The step actually used by the loop: z_array = linspace(0, z, n) has
uniform spacing z_array[1] - z_array[0] = z/(n - 1) (lines 599-600). -/
def sym_stepUsed (z h k1 k2 : ℝ) : ℝ :=
  z / ((sym_n z h k1 k2 - 1 : ℤ) : ℝ)

/-- symMapIter: the body of the stepping loop of sym_map (lines 617-625),
acting on one particle; the coefficients c1 = h^2+k1, c2 = h*k1+k2/2,
c3 = h*k1+k2 and c4 are the loop-invariant precomputations of
lines 611-614; ps is never written. -/
def symMapIter (step h k1 k2 beta g_inv : ℝ) (v : PV) : PV :=
  let c1 := h*h + k1
  let c2 := h*k1 + k2/2
  let c3 := h*k1 + k2
  let c4 := g_inv*g_inv/(beta*(1 + beta))
  let ps_beta := v.ps/beta
  let px2_py2 := v.px*v.px + v.py*v.py
  let x := (v.x + step*v.px*(1 - ps_beta))/(1 - step*h*v.px)
  let y := v.y + step*v.py*(1 + h*x - ps_beta)
  let sigma := v.sigma + step*(-h*x/beta - px2_py2/(2*beta) - c4)
  let px := v.px + step*(h*ps_beta + (-h*px2_py2 + c3*y*y)/2 - (c1 + c2*x)*x)
  let py := v.py + step*(k1 + c3*x)*y
  ⟨x, px, y, py, sigma, v.ps⟩

/-- sym_map (lines 582-632) for a single particle of the ensemble: step
selection, early return for a zero step, relativistic factors from the
energy, then the stepping loop iterated n-1 times. -/
def sym_mapParticle (z h k1 k2 energy : ℝ) (v : PV) : PV :=
  let gamma := energy/m_e_GeV
  let g_inv := if gamma ≠ 0 then 1/gamma else 0
  let beta := if gamma ≠ 0 then Real.sqrt (1 - (1/gamma)*(1/gamma)) else 1
  if sym_step1 z h k1 k2 = 0 then v
  else (symMapIter (sym_stepUsed z h k1 k2) h k1 k2 beta g_inv)^[sym_nsteps z h k1 k2] v

/-! ## Field-line RK tracker (lines 686-785). -/

/-- RKState: the per-particle working values of one RK step of
rk_track_in_field: position X, slope bx, position Y, slope byv (named by in
the source), longitudinal position Z and normalized longitudinal momentum
pz. -/
structure RKState where
  x : ℝ
  bx : ℝ
  y : ℝ
  byv : ℝ
  z : ℝ
  pz : ℝ

/-- moments (lines 686-695): converts a field sample and the current slopes
into the pair of curvature increments (mx, my). -/
def moments (bx byv Bx By Bz dzk : ℝ) : ℝ × ℝ :=
  let bx2 := bx*bx
  let by2 := byv*byv
  let bxy := bx*byv
  let sq := Real.sqrt (1 + bx2 + by2)
  let k := sq*dzk
  (k*(byv*Bz - By*(1 + bx2) + bxy*Bx), -(k*(bx*Bz - Bx*(1 + by2) + bxy*By)))

/-- rkStep: one iteration of the loop of rk_track_in_field
(lines 722-766): the classical 4-stage Runge-Kutta update in the
longitudinal coordinate, with the field sampled at the stage positions
through the supplied field-sampling capability mag. -/
def rkStep (mag : ℝ → ℝ → ℝ → ℝ × ℝ × ℝ) (dz dzk dGamma2 : ℝ) (s : RKState) : RKState :=
  let X := s.x
  let Y := s.y
  let Z := s.z
  let bxconst := s.bx
  let byconst := s.byv
  let kx1 := bxconst*dz
  let ky1 := byconst*dz
  let B1 := mag X Y Z
  let m1 := moments bxconst byconst B1.1 B1.2.1 B1.2.2 dzk
  let bx2 := bxconst + m1.1/2
  let by2 := byconst + m1.2/2
  let kx2 := bx2*dz
  let ky2 := by2*dz
  let B2 := mag (X + kx1/2) (Y + ky1/2) (Z + dz/2)
  let m2 := moments bx2 by2 B2.1 B2.2.1 B2.2.2 dzk
  let bx3 := bxconst + m2.1/2
  let by3 := byconst + m2.2/2
  let kx3 := bx3*dz
  let ky3 := by3*dz
  let B3 := mag (X + kx2/2) (Y + ky2/2) (Z + dz/2)
  let m3 := moments bx3 by3 B3.1 B3.2.1 B3.2.2 dzk
  let Z_n := Z + dz
  let bx4 := bxconst + m3.1
  let by4 := byconst + m3.2
  let kx4 := bx4*dz
  let ky4 := by4*dz
  let B4 := mag (X + kx3) (Y + ky3) Z_n
  let m4 := moments bx4 by4 B4.1 B4.2.1 B4.2.2 dzk
  let bxn := bxconst + 1/6*(m1.1 + 2*(m2.1 + m3.1) + m4.1)
  let byn := byconst + 1/6*(m1.2 + 2*(m2.2 + m3.2) + m4.2)
  ⟨X + 1/6*(kx1 + 2*(kx2 + kx3) + kx4), bxn,
   Y + 1/6*(ky1 + 2*(ky2 + ky3) + ky4), byn,
   Z_n, dGamma2 - (bxn*bxn + byn*byn)/2⟩

/-- rk_field (lines 772-785) for one particle: runs rk_track_in_field
(lines 698-769; z = linspace(0, l, N), so dz = l/(N-1) and the loop runs
N-1 times) from the particle initial conditions and copies the final
X, bx, Y, byv back into coordinates 0-3; the sigma and ps coordinates
(indices 4 and 5) are not written back (lines 783-784 are commented out in
the source). -/
def rk_fieldParticle (mag : ℝ → ℝ → ℝ → ℝ × ℝ × ℝ) (l : ℝ) (N : ℕ)
    (energy : ℝ) (v : PV) : PV :=
  let dz := l/((N : ℝ) - 1)
  let gamma := energy/m_e_GeV
  let dGamma2 := 1 - 0.5/(gamma*gamma)
  let k := speed_of_light/(m_e_eV*gamma)
  let dzk := dz*k
  let pz := dGamma2 - (v.px*v.px + v.py*v.py)/2
  let final := (rkStep mag dz dzk dGamma2)^[N - 1] ⟨v.x, v.px, v.y, v.py, 0, pz⟩
  ⟨final.x, final.bx, final.y, final.byv, v.sigma, v.ps⟩

/-! ## Drift-limit lemmas: every basis function, coefficient and
second-order term of t_nnn evaluated at h = k1 = k2 = 0. -/

@[simp] lemma kx2_drift : kx2 0 0 = 0 := by norm_num [kx2]

@[simp] lemma ky2_drift : ky2 0 = 0 := by norm_num [ky2]

@[simp] lemma cx_drift (L : ℝ) : cx L 0 0 = 1 := by simp [cx, kx2]

@[simp] lemma sx_drift (L : ℝ) : sx L 0 0 = L := by simp [sx, kx2]

@[simp] lemma cy_drift (L : ℝ) : cy L 0 = 1 := by simp [cy, ky2]

@[simp] lemma sy_drift (L : ℝ) : sy L 0 = L := by simp [sy, ky2]

@[simp] lemma dx_drift (L : ℝ) : dx L 0 0 = 0 := by simp [dx, kx2]

@[simp] lemma K2_drift : K2 0 = 0 := by norm_num [K2]

@[simp] lemma coef1_drift : coef1 0 0 0 = 0 := by norm_num [coef1, ky2, K2]

@[simp] lemma coef2_drift : coef2 0 0 0 = 0 := by norm_num [coef2, ky2, K2]

@[simp] lemma coef3_drift : coef3 0 0 = 0 := by norm_num [coef3, ky2]

@[simp] lemma i566_drift (L : ℝ) : i566 L 0 0 = 0 := by simp [i566, kx2]

@[simp] lemma t111_drift (L : ℝ) : t111 L 0 0 0 = 0 := by simp [t111]

@[simp] lemma t112_drift (L : ℝ) : t112 L 0 0 0 = 0 := by simp [t112]

@[simp] lemma t116_drift (L : ℝ) : t116 L 0 0 0 = 0 := by simp [t116]

@[simp] lemma t122_drift (L : ℝ) : t122 L 0 0 0 = 0 := by simp [t122]

@[simp] lemma t126_drift (L : ℝ) : t126 L 0 0 0 = 0 := by simp [t126]

@[simp] lemma t166_drift (L : ℝ) : t166 L 0 0 0 = 0 := by simp [t166]

@[simp] lemma t133_drift (L : ℝ) : t133 L 0 0 0 = 0 := by simp [t133]

@[simp] lemma t134_drift (L : ℝ) : t134 L 0 0 0 = 0 := by simp [t134]

@[simp] lemma t144_drift (L : ℝ) : t144 L 0 0 0 = 0 := by simp [t144]

@[simp] lemma t211_drift (L : ℝ) : t211 L 0 0 0 = 0 := by simp [t211]

@[simp] lemma t212_drift (L : ℝ) : t212 L 0 0 0 = 0 := by simp [t212]

@[simp] lemma t216_drift (L : ℝ) : t216 L 0 0 0 = 0 := by simp [t216]

@[simp] lemma t222_drift (L : ℝ) : t222 L 0 0 0 = 0 := by simp [t222]

@[simp] lemma t226_drift (L : ℝ) : t226 L 0 0 0 = 0 := by simp [t226]

@[simp] lemma t266_drift (L : ℝ) : t266 L 0 0 0 = 0 := by simp [t266]

@[simp] lemma t233_drift (L : ℝ) : t233 L 0 0 0 = 0 := by simp [t233]

@[simp] lemma t234_drift (L : ℝ) : t234 L 0 0 0 = 0 := by simp [t234]

@[simp] lemma t244_drift (L : ℝ) : t244 L 0 0 0 = 0 := by simp [t244]

@[simp] lemma t313_drift (L : ℝ) : t313 L 0 0 0 = 0 := by simp [t313]

@[simp] lemma t314_drift (L : ℝ) : t314 L 0 0 0 = 0 := by simp [t314]

@[simp] lemma t323_drift (L : ℝ) : t323 L 0 0 0 = 0 := by simp [t323]

@[simp] lemma t324_drift (L : ℝ) : t324 L 0 0 0 = 0 := by simp [t324]

@[simp] lemma t336_drift (L : ℝ) : t336 L 0 0 0 = 0 := by simp [t336]

@[simp] lemma t346_drift (L : ℝ) : t346 L 0 0 0 = 0 := by simp [t346]

@[simp] lemma t413_drift (L : ℝ) : t413 L 0 0 0 = 0 := by simp [t413]

@[simp] lemma t414_drift (L : ℝ) : t414 L 0 0 0 = 0 := by simp [t414]

@[simp] lemma t423_drift (L : ℝ) : t423 L 0 0 0 = 0 := by simp [t423]

@[simp] lemma t424_drift (L : ℝ) : t424 L 0 0 0 = 0 := by simp [t424]

@[simp] lemma t436_drift (L : ℝ) : t436 L 0 0 0 = 0 := by simp [t436]

@[simp] lemma t446_drift (L : ℝ) : t446 L 0 0 0 = 0 := by simp [t446]

@[simp] lemma t511_drift (L : ℝ) : t511 L 0 0 0 = 0 := by simp [t511]

@[simp] lemma t512_drift (L : ℝ) : t512 L 0 0 0 = 0 := by simp [t512]

@[simp] lemma t516_drift (L : ℝ) : t516 L 0 0 0 = 0 := by simp [t516]

@[simp] lemma t522_drift (L : ℝ) : t522 L 0 0 0 = 0 := by simp [t522]

@[simp] lemma t526_drift (L : ℝ) : t526 L 0 0 0 = 0 := by simp [t526]

@[simp] lemma t566_drift (L : ℝ) : t566 L 0 0 0 = 0 := by simp [t566]

@[simp] lemma t533_drift (L : ℝ) : t533 L 0 0 0 = 0 := by simp [t533]

@[simp] lemma t534_drift (L : ℝ) : t534 L 0 0 0 = 0 := by simp [t534]

@[simp] lemma t544_drift (L : ℝ) : t544 L 0 0 0 = 0 := by simp [t544]

@[simp] lemma T511_drift (L : ℝ) : T511 L 0 0 0 = 0 := by simp [T511]

@[simp] lemma T512_drift (L : ℝ) : T512 L 0 0 0 = 0 := by simp [T512]

@[simp] lemma T516_drift (L : ℝ) : T516 L 0 0 0 = 0 := by simp [T516]

@[simp] lemma T522_drift (L : ℝ) : T522 L 0 0 0 = L/2 := by
  simp [T522]; ring

@[simp] lemma T526_drift (L : ℝ) : T526 L 0 0 0 = 0 := by simp [T526]

@[simp] lemma T566_drift (L : ℝ) : T566 L 0 0 0 = 0 := by simp [T566]

@[simp] lemma T533_drift (L : ℝ) : T533 L 0 0 0 = 0 := by simp [T533]

@[simp] lemma T534_drift (L : ℝ) : T534 L 0 0 0 = 0 := by simp [T534]

@[simp] lemma T544_drift (L : ℝ) : T544 L 0 0 0 = L/2 := by
  simp [T544]; ring

/-- driftPathT: the tensor the drift-limit claim expects, all entries zero
except the second-order path-length block T[4,1,1] = T[4,3,3] = L/2 (the
direct second-order expansion of the drift path length). -/
def driftPathT (L : ℝ) : Fin 6 → Fin 6 → Fin 6 → ℝ := fun i j k =>
  match i, j, k with
  | 4, 1, 1 => L/2
  | 4, 3, 3 => L/2
  | _, _, _ => 0

set_option maxHeartbeats 4000000 in
/-- Claim C1: for every L > 0, with h = k1 = k2 = 0, t_nnn returns a tensor
whose entries all vanish except the path-length block T[4,1,1] = L/2 and
T[4,3,3] = L/2, and no formula evaluated on this input divides by zero
(zero is not among the evaluated denominators). -/
theorem t_nnn_drift_limit (L : ℝ) (hL : 0 < L) :
    t_nnn L 0 0 0 = driftPathT L ∧ (0 : ℝ) ∉ t_nnnDivisors L 0 0 0 := by
  constructor
  · funext i j k
    fin_cases i <;> fin_cases j <;> fin_cases k <;>
      first
      | rfl
      | simp [t_nnn, driftPathT]
  · norm_num [t_nnnDivisors, kx2, ky2]

/-- Witness for C1 at L = 1. -/
theorem t_nnn_drift_limit_witness :
    (0 : ℝ) < 1 ∧ (t_nnn 1 0 0 0 = driftPathT 1 ∧ (0 : ℝ) ∉ t_nnnDivisors 1 0 0 0) :=
  ⟨by norm_num, t_nnn_drift_limit 1 (by norm_num)⟩

/-- Claim C2: the concrete pure-sector-bend scenario L = 1, h = 1/10,
k1 = k2 = 0 produces T[0,0,0] equal to the independently derived
closed-form value -(h/2)*sin(h*L)^2 = -(1/20)*sin(1/10)^2. -/
theorem t_nnn_sector_bend_T000 :
    t_nnn 1 (1/10) 0 0 0 0 0 = -(1/20)*Real.sin (1/10)^2 := by
  have hs : Real.sqrt (1/100) = 1/10 := by
    rw [show ((1:ℝ)/100) = (1/10)^2 by norm_num,
      Real.sqrt_sq (by norm_num : (0:ℝ) ≤ 1/10)]
  show t111 1 (1/10) 0 0 = -(1/20)*Real.sin (1/10)^2
  simp only [t111, coef1, K2, I111, I122, kx4, kx2, ky2, sx, dx_h, cx]
  norm_num [hs]
  linear_combination (Real.sin_sq_add_cos_sq (1/10))/60

/-- Claim C3: the symplectic stepper verlet is an algebraic specialization
of the Hamiltonian evaluator H23: whenever the implicit linear equation for
x is solvable (coefficient 1 - step*h*px nonzero), the new x solves the
implicit equation x1 = x + step*dH/dpx(x1, px), and the px, py and sigma
updates are explicit Euler steps of the H23 components evaluated at the
updated positions x1, y1 with the current momenta. -/
theorem verlet_refines_H23 (v : PV) (step h k1 k2 beta g_inv : ℝ)
    (hD : 1 - step*h*v.px ≠ 0) :
    (verlet v step h k1 k2 beta g_inv).x =
      v.x + step*(H23 ⟨(verlet v step h k1 k2 beta g_inv).x, v.px,
        (verlet v step h k1 k2 beta g_inv).y, v.py, v.sigma, v.ps⟩
        h k1 k2 beta g_inv).x ∧
    (verlet v step h k1 k2 beta g_inv).px =
      v.px + step*(H23 ⟨(verlet v step h k1 k2 beta g_inv).x, v.px,
        (verlet v step h k1 k2 beta g_inv).y, v.py, v.sigma, v.ps⟩
        h k1 k2 beta g_inv).px ∧
    (verlet v step h k1 k2 beta g_inv).py =
      v.py + step*(H23 ⟨(verlet v step h k1 k2 beta g_inv).x, v.px,
        (verlet v step h k1 k2 beta g_inv).y, v.py, v.sigma, v.ps⟩
        h k1 k2 beta g_inv).py ∧
    (verlet v step h k1 k2 beta g_inv).sigma =
      v.sigma + step*(H23 ⟨(verlet v step h k1 k2 beta g_inv).x, v.px,
        (verlet v step h k1 k2 beta g_inv).y, v.py, v.sigma, v.ps⟩
        h k1 k2 beta g_inv).sigma := by
  simp only [verlet, H23]
  refine ⟨?_, by ring, by ring, by ring⟩
  field_simp
  ring

/-- Witness for C3: the zero state with step = h = k1 = k2 = beta =
g_inv = 1, where the implicit-equation coefficient is 1. -/
theorem verlet_refines_H23_witness :
    (1:ℝ) - 1*1*(PV.mk 0 0 0 0 0 0).px ≠ 0 ∧
    ((verlet ⟨0,0,0,0,0,0⟩ 1 1 1 1 1 1).x =
      (PV.mk 0 0 0 0 0 0).x + 1*(H23 ⟨(verlet ⟨0,0,0,0,0,0⟩ 1 1 1 1 1 1).x,
        (PV.mk 0 0 0 0 0 0).px, (verlet ⟨0,0,0,0,0,0⟩ 1 1 1 1 1 1).y,
        (PV.mk 0 0 0 0 0 0).py, (PV.mk 0 0 0 0 0 0).sigma,
        (PV.mk 0 0 0 0 0 0).ps⟩ 1 1 1 1 1).x ∧
    (verlet ⟨0,0,0,0,0,0⟩ 1 1 1 1 1 1).px =
      (PV.mk 0 0 0 0 0 0).px + 1*(H23 ⟨(verlet ⟨0,0,0,0,0,0⟩ 1 1 1 1 1 1).x,
        (PV.mk 0 0 0 0 0 0).px, (verlet ⟨0,0,0,0,0,0⟩ 1 1 1 1 1 1).y,
        (PV.mk 0 0 0 0 0 0).py, (PV.mk 0 0 0 0 0 0).sigma,
        (PV.mk 0 0 0 0 0 0).ps⟩ 1 1 1 1 1).px ∧
    (verlet ⟨0,0,0,0,0,0⟩ 1 1 1 1 1 1).py =
      (PV.mk 0 0 0 0 0 0).py + 1*(H23 ⟨(verlet ⟨0,0,0,0,0,0⟩ 1 1 1 1 1 1).x,
        (PV.mk 0 0 0 0 0 0).px, (verlet ⟨0,0,0,0,0,0⟩ 1 1 1 1 1 1).y,
        (PV.mk 0 0 0 0 0 0).py, (PV.mk 0 0 0 0 0 0).sigma,
        (PV.mk 0 0 0 0 0 0).ps⟩ 1 1 1 1 1).py ∧
    (verlet ⟨0,0,0,0,0,0⟩ 1 1 1 1 1 1).sigma =
      (PV.mk 0 0 0 0 0 0).sigma + 1*(H23 ⟨(verlet ⟨0,0,0,0,0,0⟩ 1 1 1 1 1 1).x,
        (PV.mk 0 0 0 0 0 0).px, (verlet ⟨0,0,0,0,0,0⟩ 1 1 1 1 1 1).y,
        (PV.mk 0 0 0 0 0 0).py, (PV.mk 0 0 0 0 0 0).sigma,
        (PV.mk 0 0 0 0 0 0).ps⟩ 1 1 1 1 1).sigma) :=
  ⟨by show (1:ℝ) - 1*1*0 ≠ 0; norm_num,
   verlet_refines_H23 ⟨0,0,0,0,0,0⟩ 1 1 1 1 1 1
     (by show (1:ℝ) - 1*1*0 ≠ 0; norm_num)⟩

/-- Counterexample for C4: at (L, h, k1, k2) = (1, 1, -1, 0) the raw tensor
returned by t_nnn has T[0,0,1] = 4/3 but T[0,1,0] = 0, so T[i,j,k] =
T[i,k,j] fails on the returned array (only entries with j <= k are
written). -/
theorem t_nnn_symmetry_cex : t_nnn 1 1 (-1) 0 0 0 1 ≠ t_nnn 1 1 (-1) 0 0 1 0 := by
  show t112 1 1 (-1) 0 + 1*sx 1 1 (-1) ≠ 0
  norm_num [t112, coef1, K2, ky2, kx2, I112, sx, dx_h]

/-- Claim C4 (amended to what the code does): the tensors returned by
t_nnn, fringe_ent and fringe_ext are strictly lower-pattern: every entry
with k < j is exactly zero; only entries with j <= k are ever derived, so
the symmetry T[i,j,k] = T[i,k,j] holds only through a symmetric read
accessor, not on the raw array. -/
theorem transport_tensor_lower_pattern :
    (∀ (L h k1 k2 : ℝ) (i j k : Fin 6), k < j → t_nnn L h k1 k2 i j k = 0) ∧
    (∀ (h k1 e h_pole gap fint : ℝ) (i j k : Fin 6), k < j →
      fringe_entT h k1 e h_pole gap fint i j k = 0) ∧
    (∀ (h k1 e h_pole gap fint : ℝ) (i j k : Fin 6), k < j →
      fringe_extT h k1 e h_pole gap fint i j k = 0) := by
  refine ⟨?_, ?_, ?_⟩
  · intro L h k1 k2 i j k hjk
    fin_cases i <;> fin_cases j <;> fin_cases k <;>
      first | rfl | exact absurd hjk (by decide)
  · intro h k1 e h_pole gap fint i j k hjk
    fin_cases i <;> fin_cases j <;> fin_cases k <;>
      first | rfl | exact absurd hjk (by decide)
  · intro h k1 e h_pole gap fint i j k hjk
    fin_cases i <;> fin_cases j <;> fin_cases k <;>
      first | rfl | exact absurd hjk (by decide)

/-- Witness for the amended C4 at concrete parameters and indices
(i, j, k) = (0, 1, 0). -/
theorem transport_tensor_lower_pattern_witness :
    t_nnn 1 0 0 0 0 1 0 = 0 ∧ fringe_entT 1 0 0 0 0 0 0 1 0 = 0 ∧
      fringe_extT 1 0 0 0 0 0 0 1 0 = 0 :=
  ⟨transport_tensor_lower_pattern.1 1 0 0 0 0 1 0 (by decide),
   transport_tensor_lower_pattern.2.1 1 0 0 0 0 0 0 1 0 (by decide),
   transport_tensor_lower_pattern.2.2 1 0 0 0 0 0 0 1 0 (by decide)⟩

set_option maxHeartbeats 1600000 in
/-- Claim C5: for every parameter set with cos(e) nonzero, the linear edge
matrix returned by fringe_ent and by fringe_ext is exactly symplectic:
R transposed * S * R = S for the block-diagonal symplectic form S. -/
theorem fringe_R_symplectic (h k1 e h_pole gap fint : ℝ)
    (he : Real.cos e ≠ 0) :
    (fringe_entR h k1 e h_pole gap fint)ᵀ * Smat *
      fringe_entR h k1 e h_pole gap fint = Smat ∧
    (fringe_extR h k1 e h_pole gap fint)ᵀ * Smat *
      fringe_extR h k1 e h_pole gap fint = Smat := by
  constructor <;>
  · ext i j
    fin_cases i <;> fin_cases j <;>
      simp [Matrix.mul_apply, Fin.sum_univ_six, fringe_entR, fringe_extR, Smat,
        Matrix.transpose_apply, Matrix.of_apply]

/-- Witness for C5 at (h, k1, e, h_pole, gap, fint) = (1, 1, 0, 1, 1, 1). -/
theorem fringe_R_symplectic_witness :
    Real.cos (0:ℝ) ≠ 0 ∧
    ((fringe_entR 1 1 0 1 1 1)ᵀ * Smat * fringe_entR 1 1 0 1 1 1 = Smat ∧
     (fringe_extR 1 1 0 1 1 1)ᵀ * Smat * fringe_extR 1 1 0 1 1 1 = Smat) :=
  ⟨by norm_num, fringe_R_symplectic 1 1 0 1 1 1 (by norm_num)⟩

/-- Counterexample for C6: with e = 0 but gap = fint = 1 and h = 1 the
effective angle phi = 1 is nonzero, both edge matrices get the same
vertical kick R[3,2] = tan 1, and the product of the two linear matrices
has entry 2*tan 1 at (3,2); it is not the identity. -/
theorem fringe_compose_cex :
    fringe_extR 1 0 0 0 1 1 * fringe_entR 1 0 0 0 1 1 ≠ 1 := by
  intro hEq
  have h32 := congrFun (congrFun hEq 3) 2
  simp [Matrix.mul_apply, Fin.sum_univ_six, fringe_extR, fringe_entR,
    Matrix.of_apply, fringePhi, sec_e, Matrix.one_apply] at h32
  have hpos := Real.tan_pos_of_pos_of_lt_pi_div_two (by norm_num : (0:ℝ) < 1)
    (by linarith [Real.pi_gt_three])
  linarith

/-- Claim C6 (amended to what the code does): with pole angle e = 0 the
entrance and exit linear edge matrices compose to the identity exactly when
the effective fringe angle vanishes, i.e. when fint*h*gap = 0; for
fint*h*gap nonzero both edges apply the same vertical kick and the product
is not the identity. -/
theorem fringe_compose_identity (h k1 h_pole gap fint : ℝ)
    (hphi : fint*h*gap = 0) :
    fringe_extR h k1 0 h_pole gap fint * fringe_entR h k1 0 h_pole gap fint = 1 := by
  have hphi0 : fringePhi h 0 gap fint = 0 := by
    have h2 : fringePhi h 0 gap fint = fint*h*gap := by
      rw [fringePhi, sec_e, Real.cos_zero, Real.sin_zero]; ring
    rw [h2, hphi]
  ext i j
  fin_cases i <;> fin_cases j <;>
    simp [Matrix.mul_apply, Fin.sum_univ_six, fringe_extR, fringe_entR,
      Matrix.of_apply, hphi0, Matrix.one_apply]

/-- Witness for the amended C6 at (h, k1, h_pole, gap, fint) =
(1, 1, 1, 0, 1). -/
theorem fringe_compose_identity_witness :
    (1:ℝ)*1*0 = 0 ∧
      fringe_extR 1 1 0 1 0 1 * fringe_entR 1 1 0 1 0 1 = 1 :=
  ⟨by norm_num, fringe_compose_identity 1 1 1 0 1 (by norm_num)⟩

/-- Counterexample for C7: at (h, k1, e, h_pole, gap, fint) =
(1, 0, 0, 0, pi/2, 1) the precondition cos(e) nonzero holds, yet the
effective angle is phi = pi/2 and the divisor cos(e - phi) evaluated by
tan(e - phi) and by T[3,2,5] is zero: the stated precondition does not
prevent division by zero. -/
theorem fringe_divzero_cex : Real.cos (0:ℝ) ≠ 0 ∧
    (0:ℝ) ∈ fringeDivisors 1 0 0 0 (Real.pi/2) 1 := by
  constructor
  · norm_num
  · have hphi : fringePhi 1 0 (Real.pi/2) 1 = Real.pi/2 := by
      rw [fringePhi, sec_e, Real.cos_zero, Real.sin_zero]; ring
    simp [fringeDivisors, hphi]

/-- Claim C7 (amended to what the code does): fringe_ent and fringe_ext
evaluate without division by zero precisely under the stronger precondition
cos(e) nonzero and cos(e - phi) nonzero, phi being the computed effective
fringe angle; every evaluated denominator is then nonzero (and in the real
model every returned entry is a real number, hence finite). -/
theorem fringe_no_division_by_zero (h k1 e h_pole gap fint : ℝ)
    (h1 : Real.cos e ≠ 0) (h2 : Real.cos (e - fringePhi h e gap fint) ≠ 0) :
    (0:ℝ) ∉ fringeDivisors h k1 e h_pole gap fint := by
  intro hmem
  simp only [fringeDivisors, List.mem_cons, List.not_mem_nil, or_false] at hmem
  rcases hmem with h0 | h0 | h0 | h0
  · exact h1 h0.symm
  · exact h1 h0.symm
  · exact h2 h0.symm
  · exact pow_ne_zero 2 h2 h0.symm

/-- Witness for the amended C7 at (h, k1, e, h_pole, gap, fint) =
(1, 1, 0, 1, 0, 1), where phi = 0. -/
theorem fringe_no_division_by_zero_witness :
    Real.cos (0:ℝ) ≠ 0 ∧ Real.cos ((0:ℝ) - fringePhi 1 0 0 1) ≠ 0 ∧
      (0:ℝ) ∉ fringeDivisors 1 1 0 1 0 1 :=
  ⟨by norm_num, by norm_num [fringePhi, sec_e],
   fringe_no_division_by_zero 1 1 0 1 0 1 (by norm_num)
     (by norm_num [fringePhi, sec_e])⟩

/-- Counterexample for C8: for z = 0.012 with h = 1 the integrator does not
use the nominal step 0.005: int(z/0.005) + 1 = 3 sample points give the
uniform linspace spacing 0.006. -/
theorem sym_map_step_cex : sym_stepUsed 0.012 1 0 0 ≠ 0.005 := by
  have hstep0 : sym_step0 0.012 1 0 0 = 0.005 := by
    rw [sym_step0, if_pos]; left; norm_num
  have hstep1 : sym_step1 0.012 1 0 0 = 0.005 := by
    rw [sym_step1, hstep0, if_neg]; norm_num
  have hfl : ⌊(0.012:ℝ)/0.005⌋ = 2 := by
    rw [Int.floor_eq_iff] <;> norm_num
  have hn : sym_n 0.012 1 0 0 = 3 := by
    rw [sym_n, truncR, hstep1, if_pos (by norm_num : (0:ℝ) ≤ 0.012/0.005), hfl]
    norm_num
  rw [sym_stepUsed, hn]
  norm_num

/-- Claim C8 (amended to what the code does): for every segment length
z > 0, when any of h, k1, k2 is nonzero the stepping loop of sym_map runs
floor(z/min(0.005, z)) times with the uniform linspace step
z/floor(z/min(0.005, z)) - the nominal 0.005 clamped to z and then rounded
so the steps tile the segment exactly - and this step never exceeds z; for
a pure drift (h = k1 = k2 = 0) the loop runs exactly once with step z. -/
theorem sym_map_step_policy (z h k1 k2 : ℝ) (hz : 0 < z) :
    (¬(h = 0 ∧ k1 = 0 ∧ k2 = 0) →
      sym_nsteps z h k1 k2 = (⌊z/min 0.005 z⌋).toNat ∧
      sym_stepUsed z h k1 k2 = z/((⌊z/min 0.005 z⌋ : ℤ) : ℝ) ∧
      sym_stepUsed z h k1 k2 ≤ z) ∧
    ((h = 0 ∧ k1 = 0 ∧ k2 = 0) →
      sym_nsteps z h k1 k2 = 1 ∧ sym_stepUsed z h k1 k2 = z) := by
  constructor
  · intro hnz
    have hcond : h ≠ 0 ∨ k1 ≠ 0 ∨ k2 ≠ 0 := by tauto
    have hstep0 : sym_step0 z h k1 k2 = 0.005 := by
      rw [sym_step0, if_pos hcond]
    have hstep1 : sym_step1 z h k1 k2 = min 0.005 z := by
      rw [sym_step1, hstep0]
      rcases le_or_lt (0.005:ℝ) z with hle | hlt
      · rw [if_neg (not_lt.mpr hle), min_eq_left hle]
      · rw [if_pos hlt, min_eq_right hlt.le]
    have hmin_pos : 0 < min (0.005:ℝ) z := lt_min (by norm_num) hz
    have hratio1 : 1 ≤ z / min 0.005 z := (one_le_div hmin_pos).mpr (min_le_right _ _)
    have hfloor : 1 ≤ ⌊z / min (0.005:ℝ) z⌋ := by
      rw [Int.le_floor]; exact_mod_cast hratio1
    have hn : sym_n z h k1 k2 = ⌊z / min (0.005:ℝ) z⌋ + 1 := by
      rw [sym_n, truncR, hstep1, if_pos (le_of_lt (div_pos hz hmin_pos))]
    have hcast : ((sym_n z h k1 k2 - 1 : ℤ) : ℝ) = (⌊z / min (0.005:ℝ) z⌋ : ℝ) := by
      rw [hn]; push_cast; ring
    refine ⟨?_, ?_, ?_⟩
    · rw [sym_nsteps, hn]; simp
    · rw [sym_stepUsed, hcast]
    · rw [sym_stepUsed, hcast]
      apply div_le_self hz.le
      exact_mod_cast hfloor
  · rintro ⟨rfl, rfl, rfl⟩
    have hstep0 : sym_step0 z 0 0 0 = z := by
      rw [sym_step0, if_neg]; push_neg; exact ⟨rfl, rfl, rfl⟩
    have hstep1 : sym_step1 z 0 0 0 = z := by
      rw [sym_step1, hstep0, if_neg (lt_irrefl z)]
    have hn : sym_n z 0 0 0 = 2 := by
      rw [sym_n, truncR, hstep1, div_self hz.ne', if_pos zero_le_one,
        Int.floor_one]
      norm_num
    constructor
    · rw [sym_nsteps, hn]; rfl
    · rw [sym_stepUsed, hn]; norm_num

/-- Witness for the amended C8 at z = 1 with h = 1, k1 = k2 = 0. -/
theorem sym_map_step_policy_witness :
    (0:ℝ) < 1 ∧
    ((¬((1:ℝ) = 0 ∧ (0:ℝ) = 0 ∧ (0:ℝ) = 0) →
      sym_nsteps 1 1 0 0 = (⌊(1:ℝ)/min 0.005 1⌋).toNat ∧
      sym_stepUsed 1 1 0 0 = 1/((⌊(1:ℝ)/min 0.005 1⌋ : ℤ) : ℝ) ∧
      sym_stepUsed 1 1 0 0 ≤ 1) ∧
    (((1:ℝ) = 0 ∧ (0:ℝ) = 0 ∧ (0:ℝ) = 0) →
      sym_nsteps 1 1 0 0 = 1 ∧ sym_stepUsed 1 1 0 0 = 1)) :=
  ⟨by norm_num, sym_map_step_policy 1 1 0 0 (by norm_num)⟩

/-- Helper for C10: the stepping loop of sym_map never writes the momentum
deviation ps, so any number of iterations preserves it. -/
lemma symMapIter_iter_ps (n : ℕ) (step h k1 k2 beta g_inv : ℝ) :
    ∀ v, ((symMapIter step h k1 k2 beta g_inv)^[n] v).ps = v.ps := by
  induction n with
  | zero => intro v; rfl
  | succ n ih =>
    intro v
    rw [Function.iterate_succ_apply, ih]
    rfl

/-- Claim C10: for every parameter set and every particle, sym_map leaves
the momentum deviation ps (index 5) unchanged, and rk_field leaves both the
path-length lag sigma (index 4) and ps (index 5) unchanged - those
coordinates are never written back. -/
theorem delta_sigma_frame_invariance :
    (∀ (z h k1 k2 energy : ℝ) (v : PV),
      (sym_mapParticle z h k1 k2 energy v).ps = v.ps) ∧
    (∀ (mag : ℝ → ℝ → ℝ → ℝ × ℝ × ℝ) (l : ℝ) (N : ℕ) (energy : ℝ) (v : PV),
      (rk_fieldParticle mag l N energy v).sigma = v.sigma ∧
      (rk_fieldParticle mag l N energy v).ps = v.ps) := by
  constructor
  · intro z h k1 k2 energy v
    simp only [sym_mapParticle]
    split
    · rfl
    · exact symMapIter_iter_ps _ _ _ _ _ _ _ v
  · intro mag l N energy v
    exact ⟨rfl, rfl⟩

end Ocelot
